import Mathlib

/-!
# Format demo (`src/Format/main.cpp`) and the format-specification engine it drives

`main` calls `fmt::println` of module `zm.fmt` with one format string and one
value of type `forward_list<vector<pair<int, string_view>>>`.  Both constants are
transcribed from the source.  The module `zm.fmt` itself is not among the source
files, so the engine (scanner, brace matching, evaluator, registry) is modelled
from the specification; every such definition says so in its doc comment.
-/

namespace Format

/-! ## The constants of `main` -/

/-- The format string of `main` (lines 10-18): nine adjacent C++ string literals.
C++ `\b` is the backspace U+0008, written `\x08` here; `\x7b` and `\x7d` are the
opening and the closing brace. -/
def formatString : String :=
  "\x7b:"
  ++ "\x7bAforw#ard_list: A\x7b\n\t\x08\x08\x08\x08\x7d"
  ++ "\x7b,\n\t\x08\x08\x08\x08\x7d"
  ++ "\x7b\x7b:"
  ++ "\x7bAvector: A[Z\t\x08\x08\x08\x08Z\n\t| #\x7d"
  ++ "\x7b |\n\t| #\x7d"
  ++ "\x7b\x7b:\x7baNumber: a###\x7d\x7b\t\x08\x08=>  English: ###\x7d###\x7d#\x7d"
  ++ "#\x7d\x7d"
  ++ "\x7d"

/-- The value of `main` (lines 19-23): a `forward_list` of three `vector`s of four
`pair<int, string_view>` each, in source order. -/
def mainValue : List (List (Int × String)) :=
  [ [ (1, "one   "), (2, "two   "), (3, "three "), (4, "four  ") ],
    [ (5, "five  "), (6, "six   "), (7, "seven "), (8, "eight ") ],
    [ (9, "nine  "), (10, "ten   "), (11, "eleven"), (12, "twelve") ] ]

/-- The backspace character, C++ `\b`. -/
def backspace : Char := '\x08'

/-- The text `w` without its trailing spaces. -/
def dropTrailingSpaces (w : String) : String :=
  String.mk (w.toList.reverse.dropWhile (fun c => c == ' ')).reverse

/-- Modelled from the spec: the `int → English-words text` collaborator (sections 4.2
and 6: `1 → "one"`, `12 → "twelve"`), which the caller supplies and the repository
does not contain.  Tabulated for zero to twelve; `none` elsewhere. -/
def englishCardinal : Int → Option String
  | 0 => some "zero"
  | 1 => some "one"
  | 2 => some "two"
  | 3 => some "three"
  | 4 => some "four"
  | 5 => some "five"
  | 6 => some "six"
  | 7 => some "seven"
  | 8 => some "eight"
  | 9 => some "nine"
  | 10 => some "ten"
  | 11 => some "eleven"
  | 12 => some "twelve"
  | _ => none

/-- For every tab of a text, the character right before it and the character right
after it (`none` at either end of the text). -/
def tabContexts : Option Char → List Char → List (Option Char × Option Char)
  | _, [] => []
  | before, c :: rest =>
    if c = '\t' then (before, rest.head?) :: tabContexts (some c) rest
    else tabContexts (some c) rest

/-! ## The scanner of the format-specification language -/

/-- Modelled from the spec: the structural characters of the mini-language of module
`zm.fmt` (section 1): the two braces, the colon and the comma. -/
def isStructural (c : Char) : Bool :=
  c == '{' || c == '}' || c == ':' || c == ','

/-- A tab with these neighbours is part of an escape marker: a structural character
stands right before it and a backspace right after it. -/
def isMarkerTab (ctx : Option Char × Option Char) : Bool :=
  match ctx with
  | (some before, some after) => isStructural before && after == backspace
  | _ => false

/-- Modelled from the spec: the three causes of `MalformedSpec` (section 7). -/
inductive MalformedKind where
  | UnbalancedBraces
  | UnknownEscapeTarget
  | BadFieldSplit
  deriving DecidableEq

/-- Modelled from the spec: the failure results of the engine (section 7). -/
inductive Error where
  | MalformedSpec (kind : MalformedKind)
  | TypeMismatch
  | ArityMismatch
  | UnknownFormatCode
  deriving DecidableEq

/-- Modelled from the spec: one field of a leaf record (section 3), an integer or a
text as in `pair<int, string_view>` of `main`. -/
inductive FieldValue where
  | int (n : Int)
  | text (s : String)

/-- Modelled from the spec: the value tree (section 3): a leaf record of fields, or a
container of value trees in their original order. -/
inductive Value where
  | record (fields : List FieldValue)
  | container (elems : List Value)

/-- Modelled from the spec: the two text-emitting directives of module `zm.fmt`, the
items of a Directive-sequence: the
sequences `open`, `sep` and a field's literal text hold text only (section 3: "text
before the first element", "text between elements", "literal prefix text"). -/
inductive TextDirective where
  | Literal (text : String)
  | Escape (c : Char)

/-- Modelled from the spec: the format of a leaf field (sections 4.2 and 9): the
built-in numeric/text format, or a labeled format code that selects a registered
custom renderer. -/
inductive LeafFormat where
  | plain
  | labeled (code : String)

/-- Modelled from the spec: one declared field of a `LeafSpec` (section 3): its
literal text, emitted before the field, and its format.  The field-selector of section 3 is the position of the field in
`fields`: the evaluator takes the declared fields in order. -/
structure LeafField where
  lead : List TextDirective
  format : LeafFormat

/-- Modelled from the spec: the Directive AST node of module `zm.fmt` (section 3),
a tagged variant over `Literal`, `Escape`, `ContainerSpec` and `LeafSpec`. -/
inductive Directive where
  | Literal (text : String)
  | Escape (c : Char)
  | ContainerSpec (opening sep : List TextDirective) (inner : Directive)
  | LeafSpec (fields : List LeafField)

/-- Modelled from the spec: the Renderer Registry of module `zm.fmt` for labeled
format codes (section 4.2); `none` means that no renderer is registered. -/
abbrev Registry := String → Option (FieldValue → String)

/-! ## Evaluator (section 4.3) -/

/-- Modelled from the spec: the text of a Directive-sequence (section 4.3):
`Literal` and `Escape` emit their text unconditionally. -/
def emitText : List TextDirective → String
  | [] => ""
  | TextDirective.Literal t :: ds => t ++ emitText ds
  | TextDirective.Escape c :: ds => String.singleton c ++ emitText ds

/-- Modelled from the spec: the numeric-formatting primitive `int → decimal text`
(section 6), a collaborator outside the repository. -/
def decimal (n : Int) : String := toString n

/-- Modelled from the spec: the built-in renderers (section 4.2): integers in
decimal, text verbatim. -/
def builtinRender : FieldValue → String
  | FieldValue.int n => decimal n
  | FieldValue.text s => s

/-- Modelled from the spec: lookup and invocation of the renderer of one field
(section 4.2); a labeled code without a registered renderer fails with
`UnknownFormatCode`. -/
def renderField (reg : Registry) (f : LeafFormat) (v : FieldValue) : Except Error String :=
  match f with
  | LeafFormat.plain => Except.ok (builtinRender v)
  | LeafFormat.labeled code =>
    match reg code with
    | some renderer => Except.ok (renderer v)
    | none => Except.error Error.UnknownFormatCode

/-- Modelled from the spec: the `LeafSpec` step of the evaluator (section 4.3): for
each declared field in order, its literal text, then its rendered value. -/
def evalFields (reg : Registry) : List LeafField → List FieldValue → Except Error String
  | f :: fs, v :: vs =>
    match renderField reg f.format v with
    | Except.error e => Except.error e
    | Except.ok r =>
      match evalFields reg fs vs with
      | Except.error e => Except.error e
      | Except.ok rest => Except.ok (emitText f.lead ++ r ++ rest)
  | _, _ => Except.ok ""

/-- Modelled from the spec: the element loop of the `ContainerSpec` step (section
4.3): for each element in original order, `sep` before every element except the
first, then the element evaluated against `inner`. -/
def evalElements (evalInner : Value → Except Error String) (sep : String) :
    Bool → List Value → Except Error String
  | _, [] => Except.ok ""
  | first, v :: vs =>
    match evalInner v with
    | Except.error e => Except.error e
    | Except.ok r =>
      match evalElements evalInner sep false vs with
      | Except.error e => Except.error e
      | Except.ok rest => Except.ok ((if first then "" else sep) ++ r ++ rest)

/-- Modelled from the spec: `evaluate(ast, value) → text` of module `zm.fmt`
(section 4.3), which is not among the source files.  It fails with `TypeMismatch`
when the AST expects a container where the value is a leaf or the reverse, and with
`ArityMismatch` when a `LeafSpec` declares a number of fields other than the leaf
record provides; a failure carries no output. -/
def evaluate (reg : Registry) : Directive → Value → Except Error String
  | Directive.Literal t, _ => Except.ok t
  | Directive.Escape c, _ => Except.ok (String.singleton c)
  | Directive.ContainerSpec o s inner, Value.container vs =>
    match evalElements (evaluate reg inner) (emitText s) true vs with
    | Except.error e => Except.error e
    | Except.ok body => Except.ok (emitText o ++ body)
  | Directive.ContainerSpec _ _ _, Value.record _ => Except.error Error.TypeMismatch
  | Directive.LeafSpec fs, Value.record vals =>
    if fs.length = vals.length then evalFields reg fs vals
    else Except.error Error.ArityMismatch
  | Directive.LeafSpec _, Value.container _ => Except.error Error.TypeMismatch

/-- One `vector` of `main` as a value tree: each `pair<int, string_view>` is a leaf
record of an integer field and a text field. -/
def groupTree (group : List (Int × String)) : Value :=
  Value.container (group.map fun p =>
    Value.record [FieldValue.int p.1, FieldValue.text p.2])

/-- The integer sequence `[1, 2, 3]` as a value tree of one-field leaves. -/
def oneTwoThree : Value :=
  Value.container [Value.record [FieldValue.int 1], Value.record [FieldValue.int 2],
    Value.record [FieldValue.int 3]]

/-- A registry without any custom renderer. -/
def emptyRegistry : Registry := fun _ => none

/-- Every text of `rs`, each with `sep` before it, in order. -/
def sepJoin (sep : String) : List String → String
  | [] => ""
  | r :: rs => sep ++ r ++ sepJoin sep rs

/-- A leaf template of two fields in the built-in format, the second with the
literal text ` => English: ` before it. -/
def pairSpec : Directive :=
  Directive.LeafSpec
    [LeafField.mk [] LeafFormat.plain,
     LeafField.mk [TextDirective.Literal " => English: "] LeafFormat.plain]

theorem intercalate_go_eq (acc sep : String) (rs : List String) :
    String.intercalate.go acc sep rs = acc ++ sepJoin sep rs := by
  induction rs generalizing acc with
  | nil => simp [String.intercalate.go, sepJoin]
  | cons r rs ih => simp [String.intercalate.go, sepJoin, ih, String.append_assoc]

theorem evalElements_rest (f : Value → Except Error String) (sep : String)
    (vs : List Value) (rs : List String)
    (h : List.Forall₂ (fun v r => f v = Except.ok r) vs rs) :
    evalElements f sep false vs = Except.ok (sepJoin sep rs) := by
  induction h with
  | nil => simp [evalElements, sepJoin]
  | cons hv _ ih => simp [evalElements, sepJoin, hv, ih]

theorem evalElements_first (f : Value → Except Error String) (sep : String)
    (vs : List Value) (rs : List String)
    (h : List.Forall₂ (fun v r => f v = Except.ok r) vs rs) :
    evalElements f sep true vs = Except.ok (String.intercalate sep rs) := by
  cases h with
  | nil => simp [evalElements, String.intercalate]
  | cons hv ht =>
    simp [evalElements, String.intercalate, hv, evalElements_rest f sep _ _ ht,
      intercalate_go_eq]

/-- The built-in text renderer keeps the trailing spaces of the words of `main`: a
container of separator ` | ` over the two-field template `pairSpec`, evaluated
against the first group of `main`. -/
theorem pairSpec_first_group :
    evaluate emptyRegistry
        (Directive.ContainerSpec [] [TextDirective.Literal " | "] pairSpec)
        (groupTree [(1, "one   "), (2, "two   "), (3, "three "), (4, "four  ")])
      = Except.ok
          "1 => English: one    | 2 => English: two    | 3 => English: three  | 4 => English: four  " := by
  rfl

/-! ## Lemmas on the scanner -/

/-- C3: a `ContainerSpec` whose bracket text is empty, evaluated against a sequence
whose elements render to the texts `rs`, emits exactly those texts in their original
order with the separator text between each two adjacent ones and none before the
first or after the last. -/
theorem containerSpec_joins_elements (reg : Registry) (opening sep : List TextDirective)
    (inner : Directive) (vs : List Value) (rs : List String)
    (ho : emitText opening = "")
    (h : List.Forall₂ (fun v r => evaluate reg inner v = Except.ok r) vs rs) :
    evaluate reg (Directive.ContainerSpec opening sep inner) (Value.container vs)
      = Except.ok (String.intercalate (emitText sep) rs) := by
  simp [evaluate, evalElements_first _ _ _ _ h, ho]

/-- Witness of C3: the sequence `[1, 2, 3]` with separator `, ` and a one-field
decimal leaf renders as `1, 2, 3`. -/
theorem containerSpec_joins_elements_witness :
    evaluate emptyRegistry
        (Directive.ContainerSpec [] [TextDirective.Literal ", "]
          (Directive.LeafSpec [LeafField.mk [] LeafFormat.plain]))
        oneTwoThree
      = Except.ok "1, 2, 3" :=
  containerSpec_joins_elements emptyRegistry [] [TextDirective.Literal ", "]
    (Directive.LeafSpec [LeafField.mk [] LeafFormat.plain])
    [Value.record [FieldValue.int 1], Value.record [FieldValue.int 2],
      Value.record [FieldValue.int 3]]
    ["1", "2", "3"] rfl
    (List.Forall₂.cons rfl (List.Forall₂.cons rfl (List.Forall₂.cons rfl List.Forall₂.nil)))

/-- C8 (as the claim states it, refuted): not every tab of the format string of
`main` stands between a structural character and a backspace. -/
theorem formatString_tab_outside_escape_marker :
    (tabContexts none formatString.toList).all isMarkerTab = false := by
  decide

/-- C8 (amended): the format string of `main` has six tabs.  Only the last one, in
the pair template, is part of an escape marker: it follows an opening brace and is
followed by a backspace.  Of the other five, four follow a newline and one follows
`Z`; three are followed by a backspace and two by `|`. -/
theorem formatString_tab_contexts :
    tabContexts none formatString.toList
        = [(some '\n', some backspace), (some '\n', some backspace),
           (some 'Z', some backspace), (some '\n', some '|'),
           (some '\n', some '|'), (some '{', some backspace)]
      ∧ (tabContexts none formatString.toList).map isMarkerTab
        = [false, false, false, false, false, true] := by
  decide

/-- C10: in the value of `main`, every text without its trailing spaces is the
English cardinal spelling of the integer paired with it, and the integers in
traversal order are 1 to 12 in three groups of four. -/
theorem mainValue_words_spell_numbers :
    mainValue.map (List.map fun p => some (dropTrailingSpaces p.2))
        = mainValue.map (List.map fun p => englishCardinal p.1)
      ∧ mainValue.map (List.map Prod.fst) = [[1, 2, 3, 4], [5, 6, 7, 8], [9, 10, 11, 12]] := by
  decide

end Format
